import Mathlib

/-!
Verification of the stage-striking phase state machine from `server.js`
(Smash OBS API).  The stateful JavaScript handlers are embedded as pure
functions: each handler takes the current match state and returns the
result (`ok`/`error`, mirroring the `{ok, error, event}` objects) together
with the state after the call.  The JS handlers mutate only after all
validation passes, so a failing call returns the input state unchanged,
exactly as the embedding does.  The catalog (`stageIds`, loaded from
`stages.json` at startup) is a parameter `c : List String`.  JS arrays used
as stacks (`history`) are lists with the head as the top; `bans.push`
appends at the end, as in the source.  The `ts: Date.now()` field of
events is wall-clock time and is omitted from the event model.
-/

inductive Phase where
  | WINNER_BAN
  | LOSER_BAN
  | WINNER_PICK
  | LOSER_PICK
  | DONE
deriving DecidableEq, Repr

/-- The string value of a phase, as stored in the JS `PHASES` table. -/
def Phase.str : Phase → String
  | .WINNER_BAN => "WINNER_BAN"
  | .LOSER_BAN => "LOSER_BAN"
  | .WINNER_PICK => "WINNER_PICK"
  | .LOSER_PICK => "LOSER_PICK"
  | .DONE => "DONE"

inductive Mode where
  | G1
  | G2PLUS
deriving DecidableEq, Repr

inductive HAction where
  | BAN
  | PICK
  | FORCE_PHASE
deriving DecidableEq, Repr

structure HistEntry where
  action : HAction
  stageId : Option String
  prevPhase : Phase
deriving DecidableEq, Repr

structure MState where
  mode : Mode
  phase : Phase
  bans : List String
  pick : Option String
  history : List HistEntry
deriving DecidableEq, Repr

/-- `createInitialState(mode = 'G1')` from `server.js`. -/
def createInitialState (mode : Mode := Mode.G1) : MState :=
  { mode := mode
    phase := Phase.WINNER_BAN
    bans := []
    pick := none
    history := [] }

/-- `getAvailableStages`: catalog ids with the banned ones filtered out. -/
def getAvailableStages (c : List String) (s : MState) : List String :=
  c.filter (fun id => decide (id ∉ s.bans))

/-- `getBansRemaining` (JS arithmetic may go negative, hence `Int`). -/
def getBansRemaining (s : MState) : Int :=
  if s.phase = Phase.WINNER_BAN then
    3 - (s.bans.length : Int)
  else if s.mode = Mode.G1 ∧ s.phase = Phase.LOSER_BAN then
    7 - (s.bans.length : Int)
  else
    0

/-- `getPicksRemaining`. -/
def getPicksRemaining (s : MState) : Nat :=
  if s.phase = Phase.WINNER_PICK ∨ s.phase = Phase.LOSER_PICK then
    if s.pick.isSome then 0 else 1
  else
    0

/-- `advancePhase`: in-place phase recomputation after a ban or pick. -/
def advancePhase (s : MState) : MState :=
  if s.mode = Mode.G1 then
    if s.phase = Phase.WINNER_BAN ∧ 3 ≤ s.bans.length then
      { s with phase := Phase.LOSER_BAN }
    else if s.phase = Phase.LOSER_BAN ∧ 7 ≤ s.bans.length then
      { s with phase := Phase.WINNER_PICK }
    else if s.phase = Phase.WINNER_PICK ∧ s.pick.isSome then
      { s with phase := Phase.DONE }
    else s
  else
    if s.phase = Phase.WINNER_BAN ∧ 3 ≤ s.bans.length then
      { s with phase := Phase.LOSER_PICK }
    else if s.phase = Phase.LOSER_PICK ∧ s.pick.isSome then
      { s with phase := Phase.DONE }
    else s

/-- A discrete event, minus the wall-clock `ts` field. -/
structure Ev where
  type : String
  stageId : String
deriving DecidableEq, Repr

/-- Result object of a handler: `{ok: true, event?}` or `{ok: false, error}`. -/
inductive Res where
  | ok (event : Option Ev)
  | err (msg : String)
deriving DecidableEq, Repr

def Res.isOk : Res → Bool
  | .ok _ => true
  | .err _ => false

def Res.event : Res → Option Ev
  | .ok e => e
  | .err _ => none

/-- `handleBan(state, stageId)`. -/
def handleBan (c : List String) (s : MState) (stageId : String) : Res × MState :=
  if stageId ∉ c then
    (Res.err ("Invalid stage: " ++ stageId), s)
  else if stageId ∈ s.bans then
    (Res.err ("Stage already banned: " ++ stageId), s)
  else if s.phase ≠ Phase.WINNER_BAN ∧ s.phase ≠ Phase.LOSER_BAN then
    (Res.err ("Cannot ban in phase: " ++ s.phase.str), s)
  else if getBansRemaining s ≤ 0 then
    (Res.err "No bans remaining in this phase", s)
  else
    let s1 : MState :=
      { s with
        bans := s.bans ++ [stageId]
        history := ⟨HAction.BAN, some stageId, s.phase⟩ :: s.history }
    (Res.ok (some ⟨"BAN", stageId⟩), advancePhase s1)

/-- `handlePick(state, stageId)`. -/
def handlePick (c : List String) (s : MState) (stageId : String) : Res × MState :=
  if stageId ∉ c then
    (Res.err ("Invalid stage: " ++ stageId), s)
  else if stageId ∈ s.bans then
    (Res.err ("Cannot pick banned stage: " ++ stageId), s)
  else if s.phase ≠ Phase.WINNER_PICK ∧ s.phase ≠ Phase.LOSER_PICK then
    (Res.err ("Cannot pick in phase: " ++ s.phase.str), s)
  else if s.pick.isSome then
    (Res.err "Already picked", s)
  else
    let s1 : MState :=
      { s with
        pick := some stageId
        history := ⟨HAction.PICK, some stageId, s.phase⟩ :: s.history }
    (Res.ok (some ⟨"PICK", stageId⟩), advancePhase s1)

/-- `handleUndo(state)`: pops the history stack and reverses its effect. -/
def handleUndo (s : MState) : Res × MState :=
  match s.history with
  | [] => (Res.err "Nothing to undo", s)
  | e :: rest =>
    let s1 : MState :=
      match e.action with
      | HAction.BAN =>
        { s with bans := s.bans.filter (fun id => decide (some id ≠ e.stageId)) }
      | HAction.PICK => { s with pick := none }
      | HAction.FORCE_PHASE => s
    (Res.ok none, { s1 with phase := e.prevPhase, history := rest })

/-- `handleReset(matchId)`: fresh state keeping the current mode. -/
def handleReset (s : MState) : Res × MState :=
  (Res.ok none, createInitialState s.mode)

/-- `handleSetMode(state, mode)`: the raw mode string is validated, then a
fresh state seeded with the parsed mode replaces the old one. -/
def handleSetMode (s : MState) (mode : String) : Res × MState :=
  if mode ≠ "G1" ∧ mode ≠ "G2PLUS" then
    (Res.err ("Invalid mode: " ++ mode), s)
  else
    (Res.ok none,
     createInitialState (if mode = "G1" then Mode.G1 else Mode.G2PLUS))

/-- The fixed `transitions[mode][phase]` table of `handleForceNextPhase`;
`none` models a missing table entry (JS `undefined`). -/
def transitions : Mode → Phase → Option Phase
  | Mode.G1, Phase.WINNER_BAN => some Phase.LOSER_BAN
  | Mode.G1, Phase.LOSER_BAN => some Phase.WINNER_PICK
  | Mode.G1, Phase.WINNER_PICK => some Phase.DONE
  | Mode.G1, Phase.DONE => some Phase.DONE
  | Mode.G2PLUS, Phase.WINNER_BAN => some Phase.LOSER_PICK
  | Mode.G2PLUS, Phase.LOSER_PICK => some Phase.DONE
  | Mode.G2PLUS, Phase.DONE => some Phase.DONE
  | _, _ => none

/-- `handleForceNextPhase(state)`. -/
def handleForceNextPhase (s : MState) : Res × MState :=
  match transitions s.mode s.phase with
  | none => (Res.err "Cannot advance phase", s)
  | some nextPhase =>
    if nextPhase = s.phase then
      (Res.err "Cannot advance phase", s)
    else
      (Res.ok none,
       { s with
         phase := nextPhase
         history := ⟨HAction.FORCE_PHASE, none, s.phase⟩ :: s.history })

/-- The derived view of `getComputedState` (the `matchId` passthrough field
is omitted: it is the caller-supplied identifier, not state). -/
structure View where
  mode : Mode
  phase : Phase
  bans : List String
  pick : Option String
  available : List String
  bansRemaining : Int
  picksRemaining : Nat
  canUndo : Bool
deriving DecidableEq, Repr

/-- `getComputedState(matchId)` applied to a match's state. -/
def getComputedState (c : List String) (s : MState) : View :=
  { mode := s.mode
    phase := s.phase
    bans := s.bans
    pick := s.pick
    available := getAvailableStages c s
    bansRemaining := getBansRemaining s
    picksRemaining := getPicksRemaining s
    canUndo := decide (0 < s.history.length) }

/-- An inbound action request, as routed by the socket `action` handler.
`UNKNOWN t` covers every unrecognized `type` string. -/
inductive ActionReq where
  | BAN (stageId : String)
  | PICK (stageId : String)
  | UNDO
  | RESET
  | SET_MODE (mode : String)
  | FORCE_NEXT_PHASE
  | UNKNOWN (t : String)
deriving DecidableEq, Repr

/-- What one `action` socket message produces: the result sent to the
requester, the stored state afterwards, and the two broadcasts (state
update to the room, discrete event push), `none` when not emitted. -/
structure DispatchOut where
  result : Res
  newState : MState
  broadcastState : Option View
  broadcastEvent : Option Ev
deriving DecidableEq, Repr

/-- The `socket.on('action', ...)` dispatcher: route by type, then
broadcast the computed state and (for ban/pick) the event only on
success. -/
def dispatch (c : List String) (s : MState) (a : ActionReq) : DispatchOut :=
  let rs : Res × MState :=
    match a with
    | .BAN id => handleBan c s id
    | .PICK id => handlePick c s id
    | .UNDO => handleUndo s
    | .RESET => handleReset s
    | .SET_MODE m => handleSetMode s m
    | .FORCE_NEXT_PHASE => handleForceNextPhase s
    | .UNKNOWN t => (Res.err ("Unknown action: " ++ t), s)
  { result := rs.1
    newState := rs.2
    broadcastState :=
      if rs.1.isOk then some (getComputedState c rs.2) else none
    broadcastEvent := if rs.1.isOk then rs.1.event else none }

/-- All bans in a sequence succeed when applied in order from `s`. -/
def banSeqOk (c : List String) (s : MState) : List String → Prop
  | [] => True
  | id :: rest =>
    (handleBan c s id).1.isOk = true ∧ banSeqOk c (handleBan c s id).2 rest

/-- State after applying a sequence of bans in order from `s`. -/
def banSeqState (c : List String) (s : MState) : List String → MState
  | [] => s
  | id :: rest => banSeqState c (handleBan c s id).2 rest

/-- `banSeqOk` is decidable, by running the bans. -/
def banSeqOkDec (c : List String) :
    (ids : List String) → (s : MState) → Decidable (banSeqOk c s ids)
  | [], _ => isTrue trivial
  | id :: rest, s =>
    have d2 : Decidable (banSeqOk c (handleBan c s id).2 rest) :=
      banSeqOkDec c rest _
    have d1 : Decidable ((handleBan c s id).1.isOk = true) := inferInstance
    @instDecidableAnd _ _ d1 d2

instance (c : List String) (s : MState) (ids : List String) :
    Decidable (banSeqOk c s ids) :=
  banSeqOkDec c ids s

/-- Total ban quota of a mode: 7 for G1 (FirstGame), 3 for G2PLUS. -/
def banQuota : Mode → Nat
  | Mode.G1 => 7
  | Mode.G2PLUS => 3

/-- The spec's FSM invariant: no duplicate bans, bans within the mode's
total quota, and the pick (if set) not banned. -/
def StateInv (s : MState) : Prop :=
  s.bans.Nodup ∧ s.bans.length ≤ banQuota s.mode ∧
    ∀ p, s.pick = some p → p ∉ s.bans

/-- Phases that can occur at all under a given mode's transition graph. -/
def allowedPhase : Mode → Phase → Prop
  | Mode.G1, p => p ≠ Phase.LOSER_PICK
  | Mode.G2PLUS, p => p ≠ Phase.LOSER_BAN ∧ p ≠ Phase.WINNER_PICK

instance (m : Mode) (p : Phase) : Decidable (allowedPhase m p) := by
  cases m <;> simp [allowedPhase] <;> infer_instance

/-- Strengthened inductive invariant, closed under every dispatched
action; it implies `StateInv`. -/
structure GoodState (c : List String) (s : MState) : Prop where
  nodup : s.bans.Nodup
  subset : ∀ x ∈ s.bans, x ∈ c
  quota : s.bans.length ≤ banQuota s.mode
  pickNotBanned : ∀ p, s.pick = some p → p ∉ s.bans
  pickDone : s.pick.isSome → s.phase = Phase.DONE
  pickTop : s.pick.isSome →
    ∃ e rest, s.history = e :: rest ∧ e.action = HAction.PICK
  phaseOk : allowedPhase s.mode s.phase
  histOk : ∀ e ∈ s.history, allowedPhase s.mode e.prevPhase

/-- States reachable from the implicit fresh state (default mode G1) by
any sequence of dispatched actions. -/
inductive Reachable (c : List String) : MState → Prop where
  | init : Reachable c (createInitialState Mode.G1)
  | step (s : MState) (a : ActionReq) :
      Reachable c s → Reachable c (dispatch c s a).newState

/-! ### Basic lemmas about `advancePhase` and failure behaviour -/

theorem advancePhase_mode (s : MState) : (advancePhase s).mode = s.mode := by
  unfold advancePhase; split_ifs <;> rfl

theorem advancePhase_bans (s : MState) : (advancePhase s).bans = s.bans := by
  unfold advancePhase; split_ifs <;> rfl

theorem advancePhase_pick (s : MState) : (advancePhase s).pick = s.pick := by
  unfold advancePhase; split_ifs <;> rfl

theorem advancePhase_history (s : MState) :
    (advancePhase s).history = s.history := by
  unfold advancePhase; split_ifs <;> rfl

theorem handleBan_fail (c : List String) (s : MState) (id : String)
    (h : (handleBan c s id).1.isOk = false) : (handleBan c s id).2 = s := by
  unfold handleBan at *
  split_ifs at * <;> simp [Res.isOk] at h ⊢

theorem handlePick_fail (c : List String) (s : MState) (id : String)
    (h : (handlePick c s id).1.isOk = false) : (handlePick c s id).2 = s := by
  unfold handlePick at *
  split_ifs at * <;> simp [Res.isOk] at h ⊢

theorem handleUndo_fail (s : MState)
    (h : (handleUndo s).1.isOk = false) : (handleUndo s).2 = s := by
  unfold handleUndo at *
  cases hh : s.history with
  | nil => rfl
  | cons e rest => rw [hh] at h; simp [Res.isOk] at h

theorem handleSetMode_fail (s : MState) (m : String)
    (h : (handleSetMode s m).1.isOk = false) : (handleSetMode s m).2 = s := by
  unfold handleSetMode at *
  split_ifs at * <;> simp [Res.isOk] at h ⊢

theorem handleForceNextPhase_fail (s : MState)
    (h : (handleForceNextPhase s).1.isOk = false) :
    (handleForceNextPhase s).2 = s := by
  cases ht : transitions s.mode s.phase with
  | none => simp [handleForceNextPhase, ht]
  | some nxt =>
    by_cases he : nxt = s.phase
    · simp [handleForceNextPhase, ht, he]
    · exfalso
      simp [handleForceNextPhase, ht, he, Res.isOk] at h

/-! ### Undo characterization -/

theorem handleUndo_cons (s : MState) (e : HistEntry) (rest : List HistEntry)
    (hh : s.history = e :: rest) :
    (handleUndo s).1 = Res.ok none ∧
    (handleUndo s).2.phase = e.prevPhase ∧
    (handleUndo s).2.history = rest ∧
    (handleUndo s).2.pick =
      (if e.action = HAction.PICK then none else s.pick) ∧
    (handleUndo s).2.bans =
      (if e.action = HAction.BAN then
        s.bans.filter (fun id => decide (some id ≠ e.stageId))
      else s.bans) ∧
    (handleUndo s).2.mode = s.mode := by
  obtain ⟨ea, eid, ep⟩ := e
  cases ea <;> simp [handleUndo, hh]

theorem filter_ne_append_singleton (l : List String) (a : String)
    (ha : a ∉ l) :
    (l ++ [a]).filter (fun x => decide (some x ≠ some a)) = l := by
  have h1 : l.filter (fun x => decide (some x ≠ some a)) = l := by
    rw [List.filter_eq_self]
    intro x hx
    simp only [ne_eq, Option.some.injEq, decide_not, Bool.not_eq_true',
      decide_eq_false_iff_not]
    intro h
    exact ha (h ▸ hx)
  simp [List.filter_append, h1]
  exact fun x hx h => ha (h ▸ hx)

/-- C2: Undo is a strict inverse of the immediately preceding successful
Ban, Pick, or ForceAdvance: applying any one of them successfully and then
Undo restores `bans`, `pick`, and `phase` to their exact prior values. -/
theorem C2_undo_strict_inverse (c : List String) (s t u : MState)
    (ids idt : String)
    (hb : (handleBan c s ids).1.isOk = true)
    (hp : (handlePick c t idt).1.isOk = true)
    (hf : (handleForceNextPhase u).1.isOk = true) :
    ((handleUndo (handleBan c s ids).2).2.bans = s.bans ∧
     (handleUndo (handleBan c s ids).2).2.pick = s.pick ∧
     (handleUndo (handleBan c s ids).2).2.phase = s.phase) ∧
    ((handleUndo (handlePick c t idt).2).2.bans = t.bans ∧
     (handleUndo (handlePick c t idt).2).2.pick = t.pick ∧
     (handleUndo (handlePick c t idt).2).2.phase = t.phase) ∧
    ((handleUndo (handleForceNextPhase u).2).2.bans = u.bans ∧
     (handleUndo (handleForceNextPhase u).2).2.pick = u.pick ∧
     (handleUndo (handleForceNextPhase u).2).2.phase = u.phase) := by
  refine ⟨?_, ?_, ?_⟩
  · unfold handleBan at hb ⊢
    split_ifs at hb ⊢ with h1 h2 h3 h4 <;> simp [Res.isOk] at hb
    have hh : (advancePhase
        { s with
            bans := s.bans ++ [ids]
            history := ⟨HAction.BAN, some ids, s.phase⟩ :: s.history }).history
        = ⟨HAction.BAN, some ids, s.phase⟩ :: s.history := by
      rw [advancePhase_history]
    obtain ⟨-, hph, -, hpk, hbn, -⟩ := handleUndo_cons _ _ _ hh
    refine ⟨?_, ?_, ?_⟩
    · rw [hbn]
      simp only [advancePhase_bans]
      simpa using filter_ne_append_singleton s.bans ids h2
    · rw [hpk]
      simp [advancePhase_pick]
    · rw [hph]
  · unfold handlePick at hp ⊢
    split_ifs at hp ⊢ with h1 h2 h3 h4 <;> simp [Res.isOk] at hp
    have hpick : t.pick = none := by
      cases hpc : t.pick with
      | none => rfl
      | some v => exact absurd (by simp [hpc]) h4
    have hh : (advancePhase
        { t with
            pick := some idt
            history := ⟨HAction.PICK, some idt, t.phase⟩ :: t.history }).history
        = ⟨HAction.PICK, some idt, t.phase⟩ :: t.history := by
      rw [advancePhase_history]
    obtain ⟨-, hph, -, hpk, hbn, -⟩ := handleUndo_cons _ _ _ hh
    refine ⟨?_, ?_, ?_⟩
    · rw [hbn]; simp [advancePhase_bans]
    · rw [hpk]; simp [hpick]
    · rw [hph]
  · cases ht : transitions u.mode u.phase with
    | none => simp [handleForceNextPhase, ht, Res.isOk] at hf
    | some nxt =>
      by_cases he : nxt = u.phase
      · simp [handleForceNextPhase, ht, he, Res.isOk] at hf
      · have hstep : (handleForceNextPhase u).2 =
            { u with
                phase := nxt
                history := ⟨HAction.FORCE_PHASE, none, u.phase⟩ :: u.history } := by
          simp [handleForceNextPhase, ht, he]
        rw [hstep]
        obtain ⟨-, hph, -, hpk, hbn, -⟩ :=
          handleUndo_cons
            { u with
                phase := nxt
                history := ⟨HAction.FORCE_PHASE, none, u.phase⟩ :: u.history }
            ⟨HAction.FORCE_PHASE, none, u.phase⟩ u.history rfl
        refine ⟨?_, ?_, ?_⟩
        · rw [hbn]; simp
        · rw [hpk]; simp
        · rw [hph]

theorem C2_undo_strict_inverse_witness :
    (handleUndo
        (handleBan ["a", "b"] (createInitialState Mode.G1) "a").2).2.phase
      = (createInitialState Mode.G1).phase :=
  (C2_undo_strict_inverse ["a", "b"] (createInitialState Mode.G1)
    ⟨Mode.G2PLUS, Phase.LOSER_PICK, [], none, []⟩
    (createInitialState Mode.G1) "a" "b" rfl rfl rfl).1.2.2

/-- C5: Atomicity on failure: when the dispatcher's routed handler fails,
the stored state is exactly the prior state and nothing is broadcast
(neither a state update nor a discrete event). -/
theorem C5_atomic_failure (c : List String) (s : MState) (a : ActionReq)
    (h : (dispatch c s a).result.isOk = false) :
    (dispatch c s a).newState = s ∧
    (dispatch c s a).broadcastState = none ∧
    (dispatch c s a).broadcastEvent = none := by
  cases a with
  | BAN id =>
    have h' : (handleBan c s id).1.isOk = false := h
    exact ⟨handleBan_fail c s id h', by simp [dispatch, h'],
      by simp [dispatch, h']⟩
  | PICK id =>
    have h' : (handlePick c s id).1.isOk = false := h
    exact ⟨handlePick_fail c s id h', by simp [dispatch, h'],
      by simp [dispatch, h']⟩
  | UNDO =>
    have h' : (handleUndo s).1.isOk = false := h
    exact ⟨handleUndo_fail s h', by simp [dispatch, h'], by simp [dispatch, h']⟩
  | RESET => exact absurd h (by simp [dispatch, handleReset, Res.isOk])
  | SET_MODE m =>
    have h' : (handleSetMode s m).1.isOk = false := h
    exact ⟨handleSetMode_fail s m h', by simp [dispatch, h'],
      by simp [dispatch, h']⟩
  | FORCE_NEXT_PHASE =>
    have h' : (handleForceNextPhase s).1.isOk = false := h
    exact ⟨handleForceNextPhase_fail s h', by simp [dispatch, h'],
      by simp [dispatch, h']⟩
  | UNKNOWN t =>
    exact ⟨rfl, by simp [dispatch, Res.isOk], by simp [dispatch, Res.isOk]⟩

theorem C5_atomic_failure_witness :
    (dispatch [] (createInitialState Mode.G1) (ActionReq.UNKNOWN "X")).newState
        = createInitialState Mode.G1 ∧
    (dispatch [] (createInitialState Mode.G1)
        (ActionReq.UNKNOWN "X")).broadcastState = none ∧
    (dispatch [] (createInitialState Mode.G1)
        (ActionReq.UNKNOWN "X")).broadcastEvent = none :=
  C5_atomic_failure [] (createInitialState Mode.G1)
    (ActionReq.UNKNOWN "X") rfl

/-- C6: ForceAdvance from phase Done fails with CannotAdvance leaving the
state unchanged; from WinnerBan in FirstGame (G1) it succeeds regardless
of how many bans have accumulated, moving to LoserBan and pushing a
FORCE_PHASE history entry recording the prior phase. -/
theorem C6_force_advance (s t : MState) (hd : s.phase = Phase.DONE)
    (hm : t.mode = Mode.G1) (hp : t.phase = Phase.WINNER_BAN) :
    handleForceNextPhase s = (Res.err "Cannot advance phase", s) ∧
    handleForceNextPhase t =
      (Res.ok none,
       { t with
           phase := Phase.LOSER_BAN
           history := ⟨HAction.FORCE_PHASE, none, Phase.WINNER_BAN⟩ ::
             t.history }) := by
  constructor
  · cases hsm : s.mode <;> simp [handleForceNextPhase, hd, hsm, transitions]
  · simp [handleForceNextPhase, hm, hp, transitions]

theorem C6_force_advance_witness :
    handleForceNextPhase ⟨Mode.G2PLUS, Phase.DONE, [], none, []⟩
        = (Res.err "Cannot advance phase",
           ⟨Mode.G2PLUS, Phase.DONE, [], none, []⟩) ∧
    handleForceNextPhase (createInitialState Mode.G1) =
      (Res.ok none,
       { createInitialState Mode.G1 with
           phase := Phase.LOSER_BAN
           history := [⟨HAction.FORCE_PHASE, none, Phase.WINNER_BAN⟩] }) :=
  C6_force_advance ⟨Mode.G2PLUS, Phase.DONE, [], none, []⟩
    (createInitialState Mode.G1) rfl rfl rfl

/-- C7: Banning an id already in `bans` and picking an id in `bans` fail
with their respective already-banned errors in every phase: the
already-banned check precedes the wrong-phase check in both handlers. -/
theorem C7_already_banned_rejection (c : List String) (s : MState)
    (id : String) (h1 : id ∈ c) (h2 : id ∈ s.bans) :
    (handleBan c s id).1 = Res.err ("Stage already banned: " ++ id) ∧
    (handlePick c s id).1 = Res.err ("Cannot pick banned stage: " ++ id) := by
  constructor <;> simp [handleBan, handlePick, h1, h2]

theorem C7_already_banned_rejection_witness :
    (handleBan ["a"] ⟨Mode.G1, Phase.DONE, ["a"], none, []⟩ "a").1
        = Res.err ("Stage already banned: " ++ "a") ∧
    (handlePick ["a"] ⟨Mode.G1, Phase.DONE, ["a"], none, []⟩ "a").1
        = Res.err ("Cannot pick banned stage: " ++ "a") :=
  C7_already_banned_rejection ["a"] ⟨Mode.G1, Phase.DONE, ["a"], none, []⟩
    "a" (by decide) (by decide)

/-- C8: Reset always succeeds and replaces the FSM with a fresh instance
(phase WinnerBan, empty bans, no pick, empty history) whose mode is the
previous state's mode, not the default mode. -/
theorem C8_reset_preserves_mode (s : MState) :
    handleReset s =
      (Res.ok none,
       { mode := s.mode
         phase := Phase.WINNER_BAN
         bans := []
         pick := none
         history := [] }) := rfl

/-- C9: SetMode fails with InvalidMode for every unrecognized mode string,
leaving the state unchanged; for G1 or G2PLUS it replaces the FSM
wholesale with a fresh instance seeded with the new mode. -/
theorem C9_setMode (s : MState) (m : String) (h1 : m ≠ "G1")
    (h2 : m ≠ "G2PLUS") :
    handleSetMode s m = (Res.err ("Invalid mode: " ++ m), s) ∧
    handleSetMode s "G1" =
      (Res.ok none,
       { mode := Mode.G1
         phase := Phase.WINNER_BAN
         bans := []
         pick := none
         history := [] }) ∧
    handleSetMode s "G2PLUS" =
      (Res.ok none,
       { mode := Mode.G2PLUS
         phase := Phase.WINNER_BAN
         bans := []
         pick := none
         history := [] }) := by
  have hne : ("G2PLUS" : String) ≠ "G1" := by decide
  refine ⟨?_, ?_, ?_⟩
  · simp [handleSetMode, h1, h2]
  · simp [handleSetMode, createInitialState]
  · simp [handleSetMode, createInitialState, hne]

theorem C9_setMode_witness :
    handleSetMode (createInitialState Mode.G1) "BAD"
        = (Res.err ("Invalid mode: " ++ "BAD"), createInitialState Mode.G1) ∧
    handleSetMode (createInitialState Mode.G1) "G1" =
      (Res.ok none,
       { mode := Mode.G1
         phase := Phase.WINNER_BAN
         bans := []
         pick := none
         history := [] }) ∧
    handleSetMode (createInitialState Mode.G1) "G2PLUS" =
      (Res.ok none,
       { mode := Mode.G2PLUS
         phase := Phase.WINNER_BAN
         bans := []
         pick := none
         history := [] }) :=
  C9_setMode (createInitialState Mode.G1) "BAD" (by decide) (by decide)

/-! ### The strengthened invariant is preserved by every action -/

theorem advancePhase_allowed (s : MState)
    (h : allowedPhase s.mode s.phase) :
    allowedPhase s.mode (advancePhase s).phase := by
  unfold advancePhase
  cases hm : s.mode <;> rw [hm] at h <;> split_ifs <;>
    simp_all [allowedPhase]

theorem goodState_init (c : List String) (m : Mode) :
    GoodState c (createInitialState m) := by
  refine ⟨?_, ?_, ?_, ?_, ?_, ?_, ?_, ?_⟩ <;>
    cases m <;> simp [createInitialState, allowedPhase, banQuota]

theorem goodState_handleBan (c : List String) (s : MState) (id : String)
    (g : GoodState c s) : GoodState c (handleBan c s id).2 := by
  unfold handleBan
  split_ifs with h1 h2 h3 h4
  · exact g
  · exact g
  · exact g
  · -- success branch: h1 : id ∈ c, h2 : id ∉ s.bans,
    -- h3 : ¬(wrong phase), h4 : ¬(remaining ≤ 0)
    have hph : s.phase = Phase.WINNER_BAN ∨ s.phase = Phase.LOSER_BAN := by
      by_cases hw : s.phase = Phase.WINNER_BAN
      · exact Or.inl hw
      · exact Or.inr (by_contra fun hl => h3 ⟨hw, hl⟩)
    have hpick : s.pick = none := by
      cases hpc : s.pick with
      | none => rfl
      | some v =>
        have hdone := g.pickDone (by simp [hpc])
        rcases hph with h | h <;> rw [h] at hdone <;> cases hdone
    have hrem : 0 < getBansRemaining s := lt_of_not_le h4
    refine ⟨?_, ?_, ?_, ?_, ?_, ?_, ?_, ?_⟩
    · rw [advancePhase_bans]
      simp only [List.nodup_append, List.nodup_cons, List.nodup_nil]
      exact ⟨g.nodup, by simp, by simp [List.disjoint_singleton, h2]⟩
    · rw [advancePhase_bans]
      intro x hx
      rcases List.mem_append.mp hx with hx | hx
      · exact g.subset x hx
      · rw [List.mem_singleton.mp hx]; exact h1
    · rw [advancePhase_bans, advancePhase_mode]
      simp only [List.length_append, List.length_singleton]
      unfold getBansRemaining at hrem
      rcases hph with h | h
      · rw [h, if_pos rfl] at hrem
        cases hm : s.mode <;> simp [banQuota] <;> omega
      · rw [h] at hrem
        cases hm : s.mode with
        | G1 =>
          rw [hm] at hrem
          simp at hrem
          simp [banQuota]
          omega
        | G2PLUS =>
          rw [hm] at hrem
          simp at hrem
    · rw [advancePhase_pick, advancePhase_bans]
      intro p hp
      simp [hpick] at hp
    · rw [advancePhase_pick]
      intro hp
      simp [hpick] at hp
    · rw [advancePhase_pick]
      intro hp
      simp [hpick] at hp
    · rw [advancePhase_mode]
      exact advancePhase_allowed _ g.phaseOk
    · rw [advancePhase_mode, advancePhase_history]
      intro e he
      rcases List.mem_cons.mp he with he | he
      · rw [he]; exact g.phaseOk
      · exact g.histOk e he
  · exact g

theorem goodState_handlePick (c : List String) (s : MState) (id : String)
    (g : GoodState c s) : GoodState c (handlePick c s id).2 := by
  unfold handlePick
  split_ifs with h1 h2 h3 h4
  · exact g
  · exact g
  · exact g
  · -- success branch
    have hph : s.phase = Phase.WINNER_PICK ∨ s.phase = Phase.LOSER_PICK := by
      by_cases hw : s.phase = Phase.WINNER_PICK
      · exact Or.inl hw
      · exact Or.inr (by_contra fun hl => h3 ⟨hw, hl⟩)
    have hpick : s.pick = none := by
      cases hpc : s.pick with
      | none => rfl
      | some v => exact absurd (by simp [hpc]) h4
    have hdone : (advancePhase
        { s with
            pick := some id
            history := ⟨HAction.PICK, some id, s.phase⟩ :: s.history }).phase
        = Phase.DONE := by
      cases hm : s.mode with
      | G1 =>
        have hnl := g.phaseOk
        rw [hm] at hnl
        simp only [allowedPhase] at hnl
        have hw : s.phase = Phase.WINNER_PICK := by
          rcases hph with h | h
          · exact h
          · exact absurd h hnl
        simp [advancePhase, hm, hw]
      | G2PLUS =>
        have hnl := g.phaseOk
        rw [hm] at hnl
        simp only [allowedPhase] at hnl
        have hw : s.phase = Phase.LOSER_PICK := by
          rcases hph with h | h
          · exact absurd h hnl.2
          · exact h
        simp [advancePhase, hm, hw]
    refine ⟨?_, ?_, ?_, ?_, ?_, ?_, ?_, ?_⟩
    · rw [advancePhase_bans]; exact g.nodup
    · rw [advancePhase_bans]; exact g.subset
    · rw [advancePhase_bans, advancePhase_mode]; exact g.quota
    · rw [advancePhase_pick, advancePhase_bans]
      intro p hp
      simp only [Option.some.injEq] at hp
      exact hp ▸ h2
    · intro _
      exact hdone
    · rw [advancePhase_pick, advancePhase_history]
      intro _
      exact ⟨⟨HAction.PICK, some id, s.phase⟩, s.history, rfl, rfl⟩
    · rw [advancePhase_mode, hdone]
      cases s.mode <;> simp [allowedPhase]
    · rw [advancePhase_mode, advancePhase_history]
      intro e he
      rcases List.mem_cons.mp he with he | he
      · rw [he]; exact g.phaseOk
      · exact g.histOk e he
  · exact g

theorem goodState_handleUndo (c : List String) (s : MState)
    (g : GoodState c s) : GoodState c (handleUndo s).2 := by
  cases hh : s.history with
  | nil =>
    have hs : (handleUndo s).2 = s := by simp [handleUndo, hh]
    rw [hs]; exact g
  | cons e rest =>
    obtain ⟨-, hph, hhist, hpk, hbn, hmode⟩ := handleUndo_cons s e rest hh
    have hnone : e.action ≠ HAction.PICK → s.pick = none := by
      intro hne
      cases hpc : s.pick with
      | none => rfl
      | some v =>
        obtain ⟨e', rest', he', ha'⟩ := g.pickTop (by simp [hpc])
        rw [hh] at he'
        have : e = e' := (List.cons.injEq _ _ _ _ ▸ he').1
        exact absurd (this ▸ ha') hne
    refine ⟨?_, ?_, ?_, ?_, ?_, ?_, ?_, ?_⟩
    · rw [hbn]
      split_ifs
      · exact g.nodup.filter _
      · exact g.nodup
    · rw [hbn]
      split_ifs
      · intro x hx
        exact g.subset x (List.mem_of_mem_filter hx)
      · exact g.subset
    · rw [hbn, hmode]
      split_ifs
      · exact le_trans (List.length_filter_le _ _) g.quota
      · exact g.quota
    · rw [hpk, hbn]
      split_ifs with hp1 hb1
      · intro p hp; cases hp
      · intro p hp; cases hp
      · intro p hp
        rw [hnone hp1] at hp
        cases hp
      · intro p hp
        rw [hnone hp1] at hp
        cases hp
    · rw [hpk]
      split_ifs with hp1
      · intro hp; cases hp
      · intro hp
        rw [hnone hp1] at hp
        cases hp
    · rw [hpk]
      split_ifs with hp1
      · intro hp; cases hp
      · intro hp
        rw [hnone hp1] at hp
        cases hp
    · rw [hmode, hph]
      exact g.histOk e (hh ▸ List.mem_cons_self e rest)
    · rw [hmode, hhist]
      intro e' he'
      exact g.histOk e' (hh ▸ List.mem_cons_of_mem e he')

theorem goodState_handleForceNextPhase (c : List String) (s : MState)
    (g : GoodState c s) : GoodState c (handleForceNextPhase s).2 := by
  cases ht : transitions s.mode s.phase with
  | none =>
    rw [handleForceNextPhase_fail s
      (by simp [handleForceNextPhase, ht, Res.isOk])]
    exact g
  | some nxt =>
    by_cases he : nxt = s.phase
    · rw [handleForceNextPhase_fail s
        (by simp [handleForceNextPhase, ht, he, Res.isOk])]
      exact g
    · have hstep : (handleForceNextPhase s).2 =
          { s with
              phase := nxt
              history := ⟨HAction.FORCE_PHASE, none, s.phase⟩ :: s.history } := by
        simp [handleForceNextPhase, ht, he]
      have hpick : s.pick = none := by
        cases hpc : s.pick with
        | none => rfl
        | some v =>
          have hd := g.pickDone (by simp [hpc])
          rw [hd] at ht
          cases hm : s.mode <;> rw [hm] at ht <;>
            simp [transitions] at ht <;> subst ht <;>
            exact absurd hd.symm he
      have hallow : allowedPhase s.mode nxt := by
        have ht' := ht
        cases hm : s.mode <;> rw [hm] at ht' <;> cases hp : s.phase <;>
          rw [hp] at ht' <;> simp [transitions] at ht' <;> subst ht' <;>
          decide
      rw [hstep]
      refine ⟨g.nodup, g.subset, g.quota, ?_, ?_, ?_, hallow, ?_⟩
      · intro p hp
        rw [hpick] at hp
        cases hp
      · intro hp
        rw [hpick] at hp
        cases hp
      · intro hp
        rw [hpick] at hp
        cases hp
      · intro e' he'
        rcases List.mem_cons.mp he' with he' | he'
        · rw [he']; exact g.phaseOk
        · exact g.histOk e' he'

theorem goodState_handleSetMode (c : List String) (s : MState) (m : String)
    (g : GoodState c s) : GoodState c (handleSetMode s m).2 := by
  unfold handleSetMode
  split_ifs <;> first
    | exact g
    | exact goodState_init c _

theorem goodState_dispatch (c : List String) (s : MState) (a : ActionReq)
    (g : GoodState c s) : GoodState c (dispatch c s a).newState := by
  cases a with
  | BAN id => exact goodState_handleBan c s id g
  | PICK id => exact goodState_handlePick c s id g
  | UNDO => exact goodState_handleUndo c s g
  | RESET => exact goodState_init c s.mode
  | SET_MODE m => exact goodState_handleSetMode c s m g
  | FORCE_NEXT_PHASE => exact goodState_handleForceNextPhase c s g
  | UNKNOWN t => exact g

theorem reachable_goodState (c : List String) (s : MState)
    (h : Reachable c s) : GoodState c s := by
  induction h with
  | init => exact goodState_init c Mode.G1
  | step s a _ ih => exact goodState_dispatch c s a ih

theorem goodState_inv (c : List String) (s : MState) (g : GoodState c s) :
    StateInv s :=
  ⟨g.nodup, g.quota, g.pickNotBanned⟩

/-- C1: every reachable FSM state satisfies the invariant (no duplicate
bans, at most the mode's total ban quota of bans - 3 for G2PLUS, 7 for G1 -
and the pick, if set, not banned), and every dispatched operation
preserves it. -/
theorem C1_invariant (c : List String) (s : MState) (a : ActionReq)
    (h : Reachable c s) :
    StateInv s ∧ StateInv (dispatch c s a).newState :=
  ⟨goodState_inv c s (reachable_goodState c s h),
   goodState_inv c _ (goodState_dispatch c s a (reachable_goodState c s h))⟩

theorem C1_invariant_witness :
    StateInv (createInitialState Mode.G1) ∧
    StateInv (dispatch ["a"] (createInitialState Mode.G1)
      (ActionReq.BAN "a")).newState :=
  C1_invariant ["a"] (createInitialState Mode.G1) (ActionReq.BAN "a")
    Reachable.init

/-- C4: for a reachable state, banning a valid not-yet-banned id in a ban
phase fails with the quota error exactly when the quota is met: in
WinnerBan when at least 3 bans exist (either mode), in G1's LoserBan when
at least 7 total bans exist; and in G1's LoserBan the remaining allowance
is 7 minus the accumulated ban count (so it can exceed 4 after a
ForceAdvance into LoserBan with fewer than 3 bans). -/
theorem C4_quota_exhausted (c : List String) (s : MState) (id : String)
    (hr : Reachable c s) (h1 : id ∈ c) (h2 : id ∉ s.bans)
    (h3 : s.phase = Phase.WINNER_BAN ∨ s.phase = Phase.LOSER_BAN) :
    ((handleBan c s id).1 = Res.err "No bans remaining in this phase" ↔
      (s.phase = Phase.WINNER_BAN ∧ 3 ≤ s.bans.length) ∨
      (s.mode = Mode.G1 ∧ s.phase = Phase.LOSER_BAN ∧
        7 ≤ s.bans.length)) ∧
    (s.mode = Mode.G1 → s.phase = Phase.LOSER_BAN →
      getBansRemaining s = 7 - (s.bans.length : Int)) := by
  have g := reachable_goodState c s hr
  have hcond3 : ¬(s.phase ≠ Phase.WINNER_BAN ∧ s.phase ≠ Phase.LOSER_BAN) := by
    rcases h3 with h | h <;> simp [h]
  have hmodeLB : s.phase = Phase.LOSER_BAN → s.mode = Mode.G1 := by
    intro hlb
    cases hm : s.mode with
    | G1 => rfl
    | G2PLUS =>
      have hok := g.phaseOk
      rw [hm, hlb] at hok
      simp [allowedPhase] at hok
  constructor
  · by_cases hq : getBansRemaining s ≤ 0
    · have hl : (handleBan c s id).1 =
          Res.err "No bans remaining in this phase" := by
        unfold handleBan
        rw [if_neg (not_not_intro h1), if_neg h2, if_neg hcond3, if_pos hq]
      rw [hl]
      constructor
      · intro _
        rcases h3 with h | h
        · left
          refine ⟨h, ?_⟩
          unfold getBansRemaining at hq
          rw [h, if_pos rfl] at hq
          omega
        · right
          have hm := hmodeLB h
          refine ⟨hm, h, ?_⟩
          unfold getBansRemaining at hq
          rw [h, hm] at hq
          simp at hq
          omega
      · intro _
        rfl
    · have hl : (handleBan c s id).1 = Res.ok (some ⟨"BAN", id⟩) := by
        unfold handleBan
        rw [if_neg (not_not_intro h1), if_neg h2, if_neg hcond3, if_neg hq]
      rw [hl]
      constructor
      · intro hcontra
        simp at hcontra
      · intro hrhs
        exfalso
        apply hq
        rcases hrhs with ⟨hph, hlen⟩ | ⟨hm, hph, hlen⟩
        · unfold getBansRemaining
          rw [hph, if_pos rfl]
          omega
        · unfold getBansRemaining
          rw [hph, hm]
          simp
          omega
  · intro hm hph
    unfold getBansRemaining
    rw [hph, hm]
    simp

theorem C4_quota_exhausted_witness :
    (handleBan ["a"] (createInitialState Mode.G1) "a").1 =
        Res.err "No bans remaining in this phase" ↔
      ((createInitialState Mode.G1).phase = Phase.WINNER_BAN ∧
        3 ≤ (createInitialState Mode.G1).bans.length) ∨
      ((createInitialState Mode.G1).mode = Mode.G1 ∧
        (createInitialState Mode.G1).phase = Phase.LOSER_BAN ∧
        7 ≤ (createInitialState Mode.G1).bans.length) :=
  (C4_quota_exhausted ["a"] (createInitialState Mode.G1) "a" Reachable.init
    (by decide) (by decide) (Or.inl rfl)).1

/-- C10: the derived view's available list is the catalog filtered by the
banned ids, in catalog order (a sublist of the catalog), and under the
no-duplicate / bans-in-catalog invariant its length is the catalog size
minus the number of bans. -/
theorem C10_available_list (c : List String) (s : MState) (hc : c.Nodup)
    (h1 : s.bans.Nodup) (h2 : ∀ x ∈ s.bans, x ∈ c) :
    (getComputedState c s).available = getAvailableStages c s ∧
    (getAvailableStages c s).Sublist c ∧
    (∀ x, x ∈ getAvailableStages c s ↔ x ∈ c ∧ x ∉ s.bans) ∧
    (getAvailableStages c s).length = c.length - s.bans.length := by
  refine ⟨rfl, List.filter_sublist c, ?_, ?_⟩
  · intro x
    simp [getAvailableStages, List.mem_filter]
  · have hsplit :=
      List.length_eq_length_filter_add (l := c)
        (fun id => decide (id ∉ s.bans))
    have hcompl :
        List.Perm (c.filter (fun id => !decide (id ∉ s.bans))) s.bans := by
      apply List.perm_of_nodup_nodup_toFinset_eq (hc.filter _) h1
      apply List.toFinset.ext
      intro x
      simp only [List.mem_filter, Bool.not_eq_true', decide_eq_false_iff_not,
        not_not]
      exact ⟨fun h => h.2, fun h => ⟨h2 x h, h⟩⟩
    have hlen := hcompl.length_eq
    unfold getAvailableStages
    omega

theorem C10_available_list_witness :
    (getAvailableStages ["a", "b"]
        ⟨Mode.G1, Phase.WINNER_BAN, ["b"], none, []⟩).length
      = (["a", "b"] : List String).length -
        (⟨Mode.G1, Phase.WINNER_BAN, ["b"], none, []⟩ : MState).bans.length :=
  (C10_available_list ["a", "b"] ⟨Mode.G1, Phase.WINNER_BAN, ["b"], none, []⟩
    (by decide) (by decide) (by decide)).2.2.2

theorem handleBan_succ (c : List String) (s : MState) (id : String)
    (h1 : id ∈ c) (h2 : id ∉ s.bans)
    (h3 : s.phase = Phase.WINNER_BAN ∨ s.phase = Phase.LOSER_BAN)
    (h4 : 0 < getBansRemaining s) :
    handleBan c s id =
      (Res.ok (some ⟨"BAN", id⟩),
       advancePhase
         { s with
             bans := s.bans ++ [id]
             history := ⟨HAction.BAN, some id, s.phase⟩ :: s.history }) := by
  have hcond3 : ¬(s.phase ≠ Phase.WINNER_BAN ∧ s.phase ≠ Phase.LOSER_BAN) := by
    rcases h3 with h | h <;> simp [h]
  unfold handleBan
  rw [if_neg (not_not_intro h1), if_neg h2, if_neg hcond3,
    if_neg (not_le.mpr h4)]

theorem handlePick_succ (c : List String) (s : MState) (id : String)
    (h1 : id ∈ c) (h2 : id ∉ s.bans)
    (h3 : s.phase = Phase.WINNER_PICK ∨ s.phase = Phase.LOSER_PICK)
    (h4 : s.pick = none) :
    handlePick c s id =
      (Res.ok (some ⟨"PICK", id⟩),
       advancePhase
         { s with
             pick := some id
             history := ⟨HAction.PICK, some id, s.phase⟩ :: s.history }) := by
  have hcond3 : ¬(s.phase ≠ Phase.WINNER_PICK ∧ s.phase ≠ Phase.LOSER_PICK) := by
    rcases h3 with h | h <;> simp [h]
  have hcond4 : ¬(s.pick.isSome = true) := by simp [h4]
  unfold handlePick
  rw [if_neg (not_not_intro h1), if_neg h2, if_neg hcond3, if_neg hcond4]


theorem handleBan_ok_state (c : List String) (s : MState) (id : String)
    (h : (handleBan c s id).1.isOk = true) :
    (handleBan c s id).2 =
      advancePhase
        { s with
            bans := s.bans ++ [id]
            history := ⟨HAction.BAN, some id, s.phase⟩ :: s.history } := by
  unfold handleBan at h ⊢
  split_ifs at h ⊢ <;> first | rfl | simp [Res.isOk] at h

theorem handlePick_ok_state (c : List String) (s : MState) (id : String)
    (h : (handlePick c s id).1.isOk = true) :
    (handlePick c s id).2 =
      advancePhase
        { s with
            pick := some id
            history := ⟨HAction.PICK, some id, s.phase⟩ :: s.history } := by
  unfold handlePick at h ⊢
  split_ifs at h ⊢ <;> first | rfl | simp [Res.isOk] at h

/-- C3: from a fresh G1 (FirstGame) state, successfully banning 3 items
moves the phase WinnerBan to LoserBan, banning 4 more (7 total) moves
LoserBan to WinnerPick, and successfully picking one item moves WinnerPick
to Done; from a fresh G2PLUS (LaterGame) state, successfully banning 3
items moves WinnerBan directly to LoserPick and picking moves LoserPick
to Done. -/
theorem C3_phase_progression (c : List String)
    (y1 y2 y3 y4 y5 y6 y7 q : String)
    (hg1 : banSeqOk c (createInitialState Mode.G1)
      [y1, y2, y3, y4, y5, y6, y7])
    (hp1 : (handlePick c (banSeqState c (createInitialState Mode.G1)
      [y1, y2, y3, y4, y5, y6, y7]) q).1.isOk = true)
    (hg2 : banSeqOk c (createInitialState Mode.G2PLUS) [y1, y2, y3])
    (hp2 : (handlePick c (banSeqState c (createInitialState Mode.G2PLUS)
      [y1, y2, y3]) q).1.isOk = true) :
    (banSeqState c (createInitialState Mode.G1) [y1, y2, y3]).phase
      = Phase.LOSER_BAN ∧
    (banSeqState c (createInitialState Mode.G1)
      [y1, y2, y3, y4, y5, y6, y7]).phase = Phase.WINNER_PICK ∧
    (handlePick c (banSeqState c (createInitialState Mode.G1)
      [y1, y2, y3, y4, y5, y6, y7]) q).2.phase = Phase.DONE ∧
    (banSeqState c (createInitialState Mode.G2PLUS) [y1, y2, y3]).phase
      = Phase.LOSER_PICK ∧
    (handlePick c (banSeqState c (createInitialState Mode.G2PLUS)
      [y1, y2, y3]) q).2.phase = Phase.DONE := by
  simp only [banSeqOk] at hg1 hg2
  obtain ⟨o1, o2, o3, o4, o5, o6, o7, -⟩ := hg1
  obtain ⟨q1, q2, q3, -⟩ := hg2
  have e1 : (handleBan c (createInitialState Mode.G1) y1).2 = (⟨Mode.G1, Phase.WINNER_BAN, [y1], none, [⟨HAction.BAN, some y1, Phase.WINNER_BAN⟩]⟩ : MState) := by
    rw [handleBan_ok_state c _ _ o1]
    simp [createInitialState, advancePhase]
  rw [e1] at o2 o3 o4 o5 o6 o7
  have e2 : (handleBan c (⟨Mode.G1, Phase.WINNER_BAN, [y1], none, [⟨HAction.BAN, some y1, Phase.WINNER_BAN⟩]⟩ : MState) y2).2 = (⟨Mode.G1, Phase.WINNER_BAN, [y1, y2], none, [⟨HAction.BAN, some y2, Phase.WINNER_BAN⟩, ⟨HAction.BAN, some y1, Phase.WINNER_BAN⟩]⟩ : MState) := by
    rw [handleBan_ok_state c _ _ o2]
    simp [createInitialState, advancePhase]
  rw [e2] at o3 o4 o5 o6 o7
  have e3 : (handleBan c (⟨Mode.G1, Phase.WINNER_BAN, [y1, y2], none, [⟨HAction.BAN, some y2, Phase.WINNER_BAN⟩, ⟨HAction.BAN, some y1, Phase.WINNER_BAN⟩]⟩ : MState) y3).2 = (⟨Mode.G1, Phase.LOSER_BAN, [y1, y2, y3], none, [⟨HAction.BAN, some y3, Phase.WINNER_BAN⟩, ⟨HAction.BAN, some y2, Phase.WINNER_BAN⟩, ⟨HAction.BAN, some y1, Phase.WINNER_BAN⟩]⟩ : MState) := by
    rw [handleBan_ok_state c _ _ o3]
    simp [createInitialState, advancePhase]
  rw [e3] at o4 o5 o6 o7
  have e4 : (handleBan c (⟨Mode.G1, Phase.LOSER_BAN, [y1, y2, y3], none, [⟨HAction.BAN, some y3, Phase.WINNER_BAN⟩, ⟨HAction.BAN, some y2, Phase.WINNER_BAN⟩, ⟨HAction.BAN, some y1, Phase.WINNER_BAN⟩]⟩ : MState) y4).2 = (⟨Mode.G1, Phase.LOSER_BAN, [y1, y2, y3, y4], none, [⟨HAction.BAN, some y4, Phase.LOSER_BAN⟩, ⟨HAction.BAN, some y3, Phase.WINNER_BAN⟩, ⟨HAction.BAN, some y2, Phase.WINNER_BAN⟩, ⟨HAction.BAN, some y1, Phase.WINNER_BAN⟩]⟩ : MState) := by
    rw [handleBan_ok_state c _ _ o4]
    simp [createInitialState, advancePhase]
  rw [e4] at o5 o6 o7
  have e5 : (handleBan c (⟨Mode.G1, Phase.LOSER_BAN, [y1, y2, y3, y4], none, [⟨HAction.BAN, some y4, Phase.LOSER_BAN⟩, ⟨HAction.BAN, some y3, Phase.WINNER_BAN⟩, ⟨HAction.BAN, some y2, Phase.WINNER_BAN⟩, ⟨HAction.BAN, some y1, Phase.WINNER_BAN⟩]⟩ : MState) y5).2 = (⟨Mode.G1, Phase.LOSER_BAN, [y1, y2, y3, y4, y5], none, [⟨HAction.BAN, some y5, Phase.LOSER_BAN⟩, ⟨HAction.BAN, some y4, Phase.LOSER_BAN⟩, ⟨HAction.BAN, some y3, Phase.WINNER_BAN⟩, ⟨HAction.BAN, some y2, Phase.WINNER_BAN⟩, ⟨HAction.BAN, some y1, Phase.WINNER_BAN⟩]⟩ : MState) := by
    rw [handleBan_ok_state c _ _ o5]
    simp [createInitialState, advancePhase]
  rw [e5] at o6 o7
  have e6 : (handleBan c (⟨Mode.G1, Phase.LOSER_BAN, [y1, y2, y3, y4, y5], none, [⟨HAction.BAN, some y5, Phase.LOSER_BAN⟩, ⟨HAction.BAN, some y4, Phase.LOSER_BAN⟩, ⟨HAction.BAN, some y3, Phase.WINNER_BAN⟩, ⟨HAction.BAN, some y2, Phase.WINNER_BAN⟩, ⟨HAction.BAN, some y1, Phase.WINNER_BAN⟩]⟩ : MState) y6).2 = (⟨Mode.G1, Phase.LOSER_BAN, [y1, y2, y3, y4, y5, y6], none, [⟨HAction.BAN, some y6, Phase.LOSER_BAN⟩, ⟨HAction.BAN, some y5, Phase.LOSER_BAN⟩, ⟨HAction.BAN, some y4, Phase.LOSER_BAN⟩, ⟨HAction.BAN, some y3, Phase.WINNER_BAN⟩, ⟨HAction.BAN, some y2, Phase.WINNER_BAN⟩, ⟨HAction.BAN, some y1, Phase.WINNER_BAN⟩]⟩ : MState) := by
    rw [handleBan_ok_state c _ _ o6]
    simp [createInitialState, advancePhase]
  rw [e6] at o7
  have e7 : (handleBan c (⟨Mode.G1, Phase.LOSER_BAN, [y1, y2, y3, y4, y5, y6], none, [⟨HAction.BAN, some y6, Phase.LOSER_BAN⟩, ⟨HAction.BAN, some y5, Phase.LOSER_BAN⟩, ⟨HAction.BAN, some y4, Phase.LOSER_BAN⟩, ⟨HAction.BAN, some y3, Phase.WINNER_BAN⟩, ⟨HAction.BAN, some y2, Phase.WINNER_BAN⟩, ⟨HAction.BAN, some y1, Phase.WINNER_BAN⟩]⟩ : MState) y7).2 = (⟨Mode.G1, Phase.WINNER_PICK, [y1, y2, y3, y4, y5, y6, y7], none, [⟨HAction.BAN, some y7, Phase.LOSER_BAN⟩, ⟨HAction.BAN, some y6, Phase.LOSER_BAN⟩, ⟨HAction.BAN, some y5, Phase.LOSER_BAN⟩, ⟨HAction.BAN, some y4, Phase.LOSER_BAN⟩, ⟨HAction.BAN, some y3, Phase.WINNER_BAN⟩, ⟨HAction.BAN, some y2, Phase.WINNER_BAN⟩, ⟨HAction.BAN, some y1, Phase.WINNER_BAN⟩]⟩ : MState) := by
    rw [handleBan_ok_state c _ _ o7]
    simp [createInitialState, advancePhase]
  have f1 : (handleBan c (createInitialState Mode.G2PLUS) y1).2 = (⟨Mode.G2PLUS, Phase.WINNER_BAN, [y1], none, [⟨HAction.BAN, some y1, Phase.WINNER_BAN⟩]⟩ : MState) := by
    rw [handleBan_ok_state c _ _ q1]
    simp [createInitialState, advancePhase]
  rw [f1] at q2 q3
  have f2 : (handleBan c (⟨Mode.G2PLUS, Phase.WINNER_BAN, [y1], none, [⟨HAction.BAN, some y1, Phase.WINNER_BAN⟩]⟩ : MState) y2).2 = (⟨Mode.G2PLUS, Phase.WINNER_BAN, [y1, y2], none, [⟨HAction.BAN, some y2, Phase.WINNER_BAN⟩, ⟨HAction.BAN, some y1, Phase.WINNER_BAN⟩]⟩ : MState) := by
    rw [handleBan_ok_state c _ _ q2]
    simp [createInitialState, advancePhase]
  rw [f2] at q3
  have f3 : (handleBan c (⟨Mode.G2PLUS, Phase.WINNER_BAN, [y1, y2], none, [⟨HAction.BAN, some y2, Phase.WINNER_BAN⟩, ⟨HAction.BAN, some y1, Phase.WINNER_BAN⟩]⟩ : MState) y3).2 = (⟨Mode.G2PLUS, Phase.LOSER_PICK, [y1, y2, y3], none, [⟨HAction.BAN, some y3, Phase.WINNER_BAN⟩, ⟨HAction.BAN, some y2, Phase.WINNER_BAN⟩, ⟨HAction.BAN, some y1, Phase.WINNER_BAN⟩]⟩ : MState) := by
    rw [handleBan_ok_state c _ _ q3]
    simp [createInitialState, advancePhase]
  have hS3 : banSeqState c (createInitialState Mode.G1) [y1, y2, y3]
      = (⟨Mode.G1, Phase.LOSER_BAN, [y1, y2, y3], none, [⟨HAction.BAN, some y3, Phase.WINNER_BAN⟩, ⟨HAction.BAN, some y2, Phase.WINNER_BAN⟩, ⟨HAction.BAN, some y1, Phase.WINNER_BAN⟩]⟩ : MState) := by
    simp [banSeqState, e1, e2, e3]
  have hS7 : banSeqState c (createInitialState Mode.G1)
      [y1, y2, y3, y4, y5, y6, y7] = (⟨Mode.G1, Phase.WINNER_PICK, [y1, y2, y3, y4, y5, y6, y7], none, [⟨HAction.BAN, some y7, Phase.LOSER_BAN⟩, ⟨HAction.BAN, some y6, Phase.LOSER_BAN⟩, ⟨HAction.BAN, some y5, Phase.LOSER_BAN⟩, ⟨HAction.BAN, some y4, Phase.LOSER_BAN⟩, ⟨HAction.BAN, some y3, Phase.WINNER_BAN⟩, ⟨HAction.BAN, some y2, Phase.WINNER_BAN⟩, ⟨HAction.BAN, some y1, Phase.WINNER_BAN⟩]⟩ : MState) := by
    simp [banSeqState, e1, e2, e3, e4, e5, e6, e7]
  have hT3 : banSeqState c (createInitialState Mode.G2PLUS) [y1, y2, y3]
      = (⟨Mode.G2PLUS, Phase.LOSER_PICK, [y1, y2, y3], none, [⟨HAction.BAN, some y3, Phase.WINNER_BAN⟩, ⟨HAction.BAN, some y2, Phase.WINNER_BAN⟩, ⟨HAction.BAN, some y1, Phase.WINNER_BAN⟩]⟩ : MState) := by
    simp [banSeqState, f1, f2, f3]
  rw [hS7] at hp1
  rw [hT3] at hp2
  have ep := handlePick_ok_state c _ q hp1
  have fp := handlePick_ok_state c _ q hp2
  refine ⟨?_, ?_, ?_, ?_, ?_⟩
  · rw [hS3]
  · rw [hS7]
  · rw [hS7, ep]
    simp [advancePhase]
  · rw [hT3]
  · rw [hT3, fp]
    simp [advancePhase]

theorem C3_phase_progression_witness :
    (banSeqState ["a", "b", "c", "d", "e", "f", "g", "h"]
      (createInitialState Mode.G1) ["a", "b", "c"]).phase
        = Phase.LOSER_BAN ∧
    (banSeqState ["a", "b", "c", "d", "e", "f", "g", "h"]
      (createInitialState Mode.G1)
      ["a", "b", "c", "d", "e", "f", "g"]).phase
        = Phase.WINNER_PICK ∧
    (handlePick ["a", "b", "c", "d", "e", "f", "g", "h"]
      (banSeqState ["a", "b", "c", "d", "e", "f", "g", "h"]
        (createInitialState Mode.G1)
        ["a", "b", "c", "d", "e", "f", "g"]) "h").2.phase
        = Phase.DONE ∧
    (banSeqState ["a", "b", "c", "d", "e", "f", "g", "h"]
      (createInitialState Mode.G2PLUS) ["a", "b", "c"]).phase
        = Phase.LOSER_PICK ∧
    (handlePick ["a", "b", "c", "d", "e", "f", "g", "h"]
      (banSeqState ["a", "b", "c", "d", "e", "f", "g", "h"]
        (createInitialState Mode.G2PLUS) ["a", "b", "c"]) "h").2.phase
        = Phase.DONE :=
  C3_phase_progression ["a", "b", "c", "d", "e", "f", "g", "h"]
    "a" "b" "c" "d" "e" "f" "g" "h"
    (by decide) (by decide) (by decide) (by decide)
